import Mathlib

/-!
Verification of the product-catalog backend
(`src/backend/src/controllers/productController.js`).

The controller is embedded shallowly:

* request-body values are JavaScript values (`JVal`) with JavaScript
  truthiness;
* the Record Store (`products` / `users`, JavaScript `Map`s created in the
  `dataStore` module) is an association list with `Map` semantics:
  `get` finds the entry, `set` updates in place or appends, `delete`
  removes the entry, `size` is the number of entries;
* the filesystem used by multer / `fs.readFileSync` / `fs.unlinkSync` is an
  association list from path to byte list; a read or unlink of a missing
  path throws, which we model as `none`;
* a thrown exception inside a controller's `try` block becomes the 500
  response produced by its `catch`;
* `Buffer.toString('base64')` is `base64Encode` below.
-/

namespace ECommerce

/-- A JavaScript value as it appears in a request body: `undefined`,
a string, or a number (the claims only need integer numbers). -/
inductive JVal where
  | undef : JVal
  | str : String → JVal
  | num : Int → JVal
deriving DecidableEq, Repr

/-- JavaScript truthiness: `undefined` is falsy, a string is truthy iff
non-empty, a number is truthy iff non-zero. -/
def JVal.truthy : JVal → Bool
  | .undef => false
  | .str s => !s.isEmpty
  | .num n => n != 0

/-- A value that is present in the body (not `undefined`) but falsy. -/
def JVal.presentFalsy (v : JVal) : Bool :=
  (v != .undef) && !v.truthy

/-- Modelled from the spec: a User record of the Record Store
(`dataStore`, not under `src/`): "User: \x7btoken: string, isAdmin:
boolean-valued predicate\x7d"; the controller only calls `user.isAdmin()`. -/
structure User where
  isAdmin : Bool
deriving DecidableEq, Repr

/-- A product record as built by `addProduct`: the four body fields are
stored as received, plus the numeric id and the image path. -/
structure Product where
  id : Int
  name : JVal
  description : JVal
  price : JVal
  quantity : JVal
  imageUrl : String
deriving DecidableEq, Repr

/-- Modelled from the spec: the `products` Map of the Record Store
(`dataStore`, not under `src/`): "an in-memory mapping from numeric ID to
product record". -/
abbrev Store := List (Int × Product)

/-- Modelled from the spec: the `users` Map of the Record Store
("a separate mapping from opaque token to user record"). -/
abbrev Users := List (String × User)

/-- The filesystem: a mapping from path to file contents (bytes). -/
abbrev Fs := List (String × List Nat)

/-- `products.get(k)`. -/
def storeGet : Store → Int → Option Product
  | [], _ => none
  | e :: rest, k => if e.1 = k then some e.2 else storeGet rest k

/-- `products.set(k, v)`: update in place if the key exists, else append. -/
def storeSet : Store → Int → Product → Store
  | [], k, v => [(k, v)]
  | e :: rest, k, v => if e.1 = k then (k, v) :: rest else e :: storeSet rest k v

/-- `products.delete(k)`. -/
def storeDelete : Store → Int → Store
  | [], _ => []
  | e :: rest, k => if e.1 = k then storeDelete rest k else e :: storeDelete rest k

/-- `products.size`. -/
def storeSize (m : Store) : Nat := m.length

/-- `users.get(token)`. -/
def usersGet : Users → String → Option User
  | [], _ => none
  | e :: rest, t => if e.1 = t then some e.2 else usersGet rest t

/-- `fs.readFileSync(p)`: `none` models the thrown error when the path is
missing. -/
def fsRead : Fs → String → Option (List Nat)
  | [], _ => none
  | e :: rest, p => if e.1 = p then some e.2 else fsRead rest p

/-- Writing a file at path `p` (multer's disk storage). -/
def fsWrite : Fs → String → List Nat → Fs
  | [], p, b => [(p, b)]
  | e :: rest, p, b => if e.1 = p then (p, b) :: rest else e :: fsWrite rest p b

/-- `fs.unlinkSync(p)`: `none` models the thrown error when the path is
missing. -/
def fsUnlink : Fs → String → Option Fs
  | [], _ => none
  | e :: rest, p =>
    if e.1 = p then some rest
    else (fsUnlink rest p).map (fun fs2 => e :: fs2)

/-- JavaScript `StrWhiteSpace` as trimmed by `parseInt` / `Number`:
WhiteSpace (tab, vertical tab, form feed, space, NBSP, BOM and the
Unicode space separators) plus the line terminators. -/
def isWs (c : Char) : Bool :=
  c == ' ' || c == '\t' || c == '\n' || c == '\r' || c == '\u000B' || c == '\u000C' ||
  c == '\u00A0' || c == '\uFEFF' || c == '\u1680' ||
  c == '\u2000' || c == '\u2001' || c == '\u2002' || c == '\u2003' || c == '\u2004' ||
  c == '\u2005' || c == '\u2006' || c == '\u2007' || c == '\u2008' || c == '\u2009' ||
  c == '\u200A' || c == '\u2028' || c == '\u2029' || c == '\u202F' || c == '\u205F' ||
  c == '\u3000'

/-- Value of a non-empty decimal digit list. -/
def digitsVal (l : List Char) : Int :=
  l.foldl (fun a c => a * 10 + ((c.toNat - 48 : Nat) : Int)) 0

/-- A hexadecimal digit, as accepted by `parseInt` with radix 16. -/
def isHexDigit (c : Char) : Bool :=
  c.isDigit || ('a' ≤ c && c ≤ 'f') || ('A' ≤ c && c ≤ 'F')

/-- Value of one hexadecimal digit. -/
def hexDigitVal (c : Char) : Nat :=
  if c.isDigit then c.toNat - 48
  else if 'a' ≤ c && c ≤ 'f' then c.toNat - 87
  else c.toNat - 55

/-- Value of a non-empty hexadecimal digit list. -/
def hexVal (l : List Char) : Int :=
  l.foldl (fun a c => a * 16 + (hexDigitVal c : Int)) 0

/-- JavaScript `parseInt(s)` with no radix argument: skip leading
`StrWhiteSpace`, take an optional sign, then — when the remainder starts
with `0x` or `0X` — the longest prefix of hexadecimal digits after that
prefix (radix 16), otherwise the longest prefix of decimal digits
(radix 10); `none` models `NaN` (no digit found in the selected radix).
Trailing garbage after the digits is ignored. -/
def parseIntJS (s : String) : Option Int :=
  let l := s.toList.dropWhile isWs
  let sign : Int := match l with
    | '-' :: _ => -1
    | _ => 1
  let l2 := match l with
    | '-' :: rest => rest
    | '+' :: rest => rest
    | rest => rest
  match l2 with
  | '0' :: 'x' :: rest =>
    let ds := rest.takeWhile isHexDigit
    if ds.isEmpty then none else some (sign * hexVal ds)
  | '0' :: 'X' :: rest =>
    let ds := rest.takeWhile isHexDigit
    if ds.isEmpty then none else some (sign * hexVal ds)
  | _ =>
    let ds := l2.takeWhile Char.isDigit
    if ds.isEmpty then none else some (sign * digitsVal ds)

/-- JavaScript `Number(s)` for a string, restricted to the plain-decimal
inputs the theorems instantiate it with: a whitespace-only string converts
to `0`, a signed decimal integer to its value, anything else to `NaN`
(`none`). Other integer-valued notations (hexadecimal `"0x10"`, exponent
`"1e2"`, fractions) are conservatively mapped to `none` as well; every
theorem uses `jsNumber` only under a `jsNumber body.productId = some key`
hypothesis, so nothing is asserted about those inputs. -/
def jsNumberOfString (s : String) : Option Int :=
  let l := ((s.toList.dropWhile isWs).reverse.dropWhile isWs).reverse
  if l.isEmpty then some 0
  else
    let sign : Int := match l with
      | '-' :: _ => -1
      | _ => 1
    let l2 := match l with
      | '-' :: rest => rest
      | '+' :: rest => rest
      | rest => rest
    if !l2.isEmpty && l2.all Char.isDigit then some (sign * digitsVal l2)
    else none

/-- JavaScript `Number(v)` on a body value (`Number(undefined)` is `NaN`). -/
def jsNumber : JVal → Option Int
  | .undef => none
  | .num n => some n
  | .str s => jsNumberOfString s

/-- A body value used directly as a `Map` key (as in
`products.get(req.body.productId)`): only a number can match the numeric
keys of the product store. -/
def jvalKey : JVal → Option Int
  | .num n => some n
  | _ => none

/-- The base64 alphabet. -/
def b64alphabet : List Char :=
  "ABCDEFGHIJKLMNOPQRSTUVWXYZabcdefghijklmnopqrstuvwxyz0123456789+/".toList

/-- The base64 digit for a 6-bit value. -/
def b64c (n : Nat) : Char := b64alphabet.getD n '?'

/-- Index of a character in the base64 alphabet. -/
def b64index (c : Char) : Nat := b64alphabet.findIdx (fun x => x == c)

/-- `Buffer.toString('base64')`: standard base64 with padding. -/
def base64Encode : List Nat → List Char
  | [] => []
  | [b1] => [b64c (b1 / 4), b64c (b1 % 4 * 16), '=', '=']
  | [b1, b2] => [b64c (b1 / 4), b64c (b1 % 4 * 16 + b2 / 16), b64c (b2 % 16 * 4), '=']
  | b1 :: b2 :: b3 :: rest =>
    b64c (b1 / 4) :: b64c (b1 % 4 * 16 + b2 / 16) :: b64c (b2 % 16 * 4 + b3 / 64) ::
      b64c (b3 % 64) :: base64Encode rest

/-- Standard base64 decoding (inverse of `base64Encode`). -/
def base64Decode : List Char → List Nat
  | c1 :: c2 :: c3 :: c4 :: rest =>
    if c3 = '=' then [b64index c1 * 4 + b64index c2 / 16]
    else if c4 = '=' then
      [b64index c1 * 4 + b64index c2 / 16, b64index c2 % 16 * 16 + b64index c3 / 4]
    else
      (b64index c1 * 4 + b64index c2 / 16) :: (b64index c2 % 16 * 16 + b64index c3 / 4) ::
        (b64index c3 % 4 * 64 + b64index c4) :: base64Decode rest
  | _ => []

/-- The outcome of the `whoami` identity call: its HTTP status and, when
relevant, the token field of its JSON body. -/
structure AuthEnv where
  whoamiStatus : Nat
  whoamiToken : String
deriving DecidableEq, Repr

/-- `req.file` as produced by multer: the assigned filename
(timestamp + original extension) and the uploaded bytes. -/
structure UploadedFile where
  filename : String
  bytes : List Nat
deriving DecidableEq, Repr

/-- The body of a `POST /products` request. -/
structure AddBody where
  name : JVal
  description : JVal
  price : JVal
  quantity : JVal
deriving DecidableEq, Repr

/-- The body of a `PUT /products` request. -/
structure UpdateBody where
  productId : JVal
  name : JVal
  description : JVal
  price : JVal
  quantity : JVal
deriving DecidableEq, Repr

/-- A mutating endpoint's observable outcome: the HTTP status, the product
record sent back (when one is), and the resulting store and filesystem. -/
structure MutResult where
  status : Nat
  product : Option Product
  store : Store
  fs : Fs
deriving DecidableEq, Repr

/-- A read endpoint's outcome: status and, on 200, the product together
with its base64 image payload. -/
structure GetResult where
  status : Nat
  body : Option (Product × List Char)
deriving DecidableEq, Repr

/-- The multer middleware runs before the controller: when a file is part
of the request it is stored under `src/uploads/` unconditionally. -/
def multerStore (fs : Fs) : Option UploadedFile → Fs
  | none => fs
  | some f => fsWrite fs ("src/uploads/" ++ f.filename) f.bytes

/-- `exports.addProduct`. Branches in source order: 401 when `whoami` is
not 200; the `users.get` miss makes `user.isAdmin()` throw, caught as 500;
403 for a non-admin; 400 when a body field or the image is falsy (the
source's single `||` test is split around the match on the file); otherwise
the record is built with id `products.size + 1` and `set` into the store. -/
def addProduct (env : AuthEnv) (users : Users) (store : Store) (fs0 : Fs)
    (body : AddBody) (file : Option UploadedFile) : MutResult :=
  let fs := multerStore fs0 file
  if env.whoamiStatus ≠ 200 then ⟨401, none, store, fs⟩
  else
    match usersGet users env.whoamiToken with
    | none => ⟨500, none, store, fs⟩
    | some user =>
      if !user.isAdmin then ⟨403, none, store, fs⟩
      else
        match file with
        | none => ⟨400, none, store, fs⟩
        | some image =>
          if body.name.truthy && body.description.truthy &&
              body.price.truthy && body.quantity.truthy then
            let newProductId : Int := (storeSize store : Int) + 1
            let newProduct : Product :=
              ⟨newProductId, body.name, body.description, body.price, body.quantity,
                "src/uploads/" ++ image.filename⟩
            ⟨201, some newProduct, storeSet store newProductId newProduct, fs⟩
          else ⟨400, none, store, fs⟩

/-- The `products.values().map(...)` loop of `getProducts`: read each
image synchronously; the first failing read throws and aborts the whole
request (`none`). -/
def readAllImages : List Product → Fs → Option (List (Product × List Char))
  | [], _ => some []
  | p :: rest, fs =>
    match fsRead fs p.imageUrl with
    | none => none
    | some bytes => (readAllImages rest fs).map (fun l => (p, base64Encode bytes) :: l)

/-- `exports.getProducts`: no auth is consulted (the env and users
arguments are ignored, mirroring that the source never reads them). -/
def getProducts (_env : AuthEnv) (_users : Users) (store : Store) (fs : Fs) :
    Option (List (Product × List Char)) :=
  readAllImages (store.map (fun e => e.2)) fs

/-- `exports.getProductById`: `parseInt` the path parameter (400 on `NaN`),
look the product up (404 on a miss), read its image file (the read has no
`try` around it, so a missing file becomes the framework's 500), and return
the record with the base64 payload. -/
def getProductById (_env : AuthEnv) (_users : Users) (store : Store) (fs : Fs)
    (idParam : String) : GetResult :=
  match parseIntJS idParam with
  | none => ⟨400, none⟩
  | some productId =>
    match storeGet store productId with
    | none => ⟨404, none⟩
    | some product =>
      match fsRead fs product.imageUrl with
      | none => ⟨500, none⟩
      | some imageBuffer => ⟨200, some (product, base64Encode imageBuffer)⟩

/-- `exports.deleteProduct`: auth as in `addProduct`; 400 on a falsy
`productId`; `products.get(productId)` uses the body value directly as the
key (a non-number never matches), 404 on a miss; otherwise
`products.delete(productId)`. The filesystem is never touched. -/
def deleteProduct (env : AuthEnv) (users : Users) (store : Store) (fs : Fs)
    (productId : JVal) : MutResult :=
  if env.whoamiStatus ≠ 200 then ⟨401, none, store, fs⟩
  else
    match usersGet users env.whoamiToken with
    | none => ⟨500, none, store, fs⟩
    | some user =>
      if !user.isAdmin then ⟨403, none, store, fs⟩
      else if !productId.truthy then ⟨400, none, store, fs⟩
      else
        match jvalKey productId with
        | none => ⟨404, none, store, fs⟩
        | some key =>
          match storeGet store key with
          | none => ⟨404, none, store, fs⟩
          | some _ => ⟨200, none, storeDelete store key, fs⟩

/-- The four field updates of `updateProduct`: each field is overwritten
exactly when the body value is truthy. -/
def applyFieldUpdates (product : Product) (body : UpdateBody) : Product :=
  let p1 := if body.name.truthy then { product with name := body.name } else product
  let p2 := if body.description.truthy then { p1 with description := body.description } else p1
  let p3 := if body.price.truthy then { p2 with price := body.price } else p2
  if body.quantity.truthy then { p3 with quantity := body.quantity } else p3

/-- `exports.updateProduct`: auth as in `addProduct`; the key is
`Number(productId)` (`NaN` misses, hence 404); 404 when the product does
not exist; the field updates mutate the stored record in place; when a new
file was uploaded the old image is `unlinkSync`ed (a throw there is caught
as 500, after the field mutations already hit the store) and the record's
`imageUrl` is replaced. -/
def updateProduct (env : AuthEnv) (users : Users) (store : Store) (fs0 : Fs)
    (body : UpdateBody) (file : Option UploadedFile) : MutResult :=
  let fs := multerStore fs0 file
  if env.whoamiStatus ≠ 200 then ⟨401, none, store, fs⟩
  else
    match usersGet users env.whoamiToken with
    | none => ⟨500, none, store, fs⟩
    | some user =>
      if !user.isAdmin then ⟨403, none, store, fs⟩
      else
        match jsNumber body.productId with
        | none => ⟨404, none, store, fs⟩
        | some key =>
          match storeGet store key with
          | none => ⟨404, none, store, fs⟩
          | some product0 =>
            let product1 := applyFieldUpdates product0 body
            match file with
            | none => ⟨200, some product1, storeSet store key product1, fs⟩
            | some f =>
              match fsUnlink fs product1.imageUrl with
              | none => ⟨500, none, storeSet store key product1, fs⟩
              | some fs2 =>
                let product2 := { product1 with imageUrl := "src/uploads/" ++ f.filename }
                ⟨200, some product2, storeSet store key product2, fs2⟩

/-! ## Helper lemmas -/

theorem b64index_b64c_fin : ∀ i : Fin 64, b64index (b64c i.val) = i.val := by decide

theorem b64c_ne_pad_fin : ∀ i : Fin 64, b64c i.val ≠ '=' := by decide

theorem b64index_b64c {n : Nat} (h : n < 64) : b64index (b64c n) = n :=
  b64index_b64c_fin ⟨n, h⟩

theorem b64c_ne_pad {n : Nat} (h : n < 64) : b64c n ≠ '=' :=
  b64c_ne_pad_fin ⟨n, h⟩

theorem base64_roundtrip : ∀ bytes : List Nat, (∀ b ∈ bytes, b < 256) →
    base64Decode (base64Encode bytes) = bytes
  | [], _ => rfl
  | [b1], h => by
    have hb1 : b1 < 256 := h b1 (by simp)
    simp only [base64Encode, base64Decode]
    rw [if_pos trivial]
    rw [b64index_b64c (by omega), b64index_b64c (by omega)]
    simp only [List.cons.injEq, and_true]
    omega
  | [b1, b2], h => by
    have hb1 : b1 < 256 := h b1 (by simp)
    have hb2 : b2 < 256 := h b2 (by simp)
    simp only [base64Encode, base64Decode]
    rw [if_neg (b64c_ne_pad (by omega)), if_pos trivial]
    rw [b64index_b64c (by omega), b64index_b64c (by omega), b64index_b64c (by omega)]
    simp only [List.cons.injEq, and_true]
    omega
  | b1 :: b2 :: b3 :: rest, h => by
    have hb1 : b1 < 256 := h b1 (by simp)
    have hb2 : b2 < 256 := h b2 (by simp)
    have hb3 : b3 < 256 := h b3 (by simp)
    have ih := base64_roundtrip rest (fun b hb =>
      h b (List.mem_cons_of_mem _ (List.mem_cons_of_mem _ (List.mem_cons_of_mem _ hb))))
    simp only [base64Encode, base64Decode]
    rw [if_neg (b64c_ne_pad (by omega)), if_neg (b64c_ne_pad (by omega))]
    rw [b64index_b64c (by omega), b64index_b64c (by omega), b64index_b64c (by omega),
      b64index_b64c (by omega)]
    rw [ih]
    simp only [List.cons.injEq, and_true]
    omega

theorem base64Encode_ne_nil : ∀ bytes : List Nat, bytes ≠ [] → base64Encode bytes ≠ []
  | [], h => absurd rfl h
  | [_], _ => by simp [base64Encode]
  | [_, _], _ => by simp [base64Encode]
  | _ :: _ :: _ :: _, _ => by simp [base64Encode]

theorem storeGet_storeSet_self : ∀ (s : Store) (k : Int) (v : Product),
    storeGet (storeSet s k v) k = some v
  | [], k, v => by simp [storeSet, storeGet]
  | e :: rest, k, v => by
    by_cases hek : e.1 = k
    · simp [storeSet, storeGet, hek]
    · simp [storeSet, storeGet, hek, storeGet_storeSet_self rest k v]

theorem storeGet_storeDelete_self : ∀ (s : Store) (k : Int),
    storeGet (storeDelete s k) k = none
  | [], _ => rfl
  | e :: rest, k => by
    by_cases hek : e.1 = k
    · simp [storeDelete, hek, storeGet_storeDelete_self rest k]
    · simp [storeDelete, storeGet, hek, storeGet_storeDelete_self rest k]

theorem fsRead_fsWrite_self : ∀ (fs : Fs) (p : String) (b : List Nat),
    fsRead (fsWrite fs p b) p = some b
  | [], p, b => by simp [fsWrite, fsRead]
  | e :: rest, p, b => by
    by_cases hep : e.1 = p
    · simp [fsWrite, fsRead, hep]
    · simp [fsWrite, fsRead, hep, fsRead_fsWrite_self rest p b]

/-! ## Concrete data used by witnesses and counterexamples -/

/-- An identity call that succeeded with token `tok`. -/
def demoEnv : AuthEnv := ⟨200, "tok"⟩

/-- An identity call that failed. -/
def demoBadEnv : AuthEnv := ⟨401, "tok"⟩

/-- An admin user. -/
def demoAdminUser : User := ⟨true⟩

/-- A user table binding `tok` to an admin. -/
def demoUsers : Users := [("tok", demoAdminUser)]

/-- A user table binding `tok` to a non-admin. -/
def demoNonAdminUsers : Users := [("tok", ⟨false⟩)]

/-- A complete, truthy add body. -/
def demoBody : AddBody := ⟨.str "Widget", .str "A widget", .num 10, .num 5⟩

/-- An uploaded three-byte image stored under name `n`. -/
def demoFile (n : String) : UploadedFile := ⟨n, [7, 8, 9]⟩

/-- A product with id 1, as `addProduct` would build it. -/
def demoProduct : Product :=
  ⟨1, .str "Widget", .str "A widget", .num 10, .num 5, "src/uploads/a.png"⟩

/-- A store holding only `demoProduct` under key 1. -/
def demoStore : Store := [(1, demoProduct)]

/-- A filesystem holding `demoProduct`'s image. -/
def demoFs : Fs := [("src/uploads/a.png", [7, 8, 9])]

/-- Step 1 of the collision scenario: add a product to the empty store. -/
def seqR1 : MutResult := addProduct demoEnv demoUsers [] [] demoBody (some (demoFile "a.png"))

/-- Step 2: add a second product. -/
def seqR2 : MutResult :=
  addProduct demoEnv demoUsers seqR1.store seqR1.fs demoBody (some (demoFile "b.png"))

/-- Step 3: delete product 1. -/
def seqR3 : MutResult := deleteProduct demoEnv demoUsers seqR2.store seqR2.fs (.num 1)

/-- Step 4: add a third product after the deletion. -/
def seqR4 : MutResult :=
  addProduct demoEnv demoUsers seqR3.store seqR3.fs demoBody (some (demoFile "c.png"))

/-! ## Claims -/

/-- C1: every `addProduct` call that returns 201 assigns the new product
the ID `products.size + 1` computed at call time; and in the concrete run
add, add, delete 1, add, the final add is assigned ID 2, the ID of a
product already in the store at that moment. -/
theorem addProduct_id_is_size_plus_one :
    (∀ env users store fs body file,
      (addProduct env users store fs body file).status = 201 →
      (addProduct env users store fs body file).product.map Product.id
        = some ((storeSize store : Int) + 1))
    ∧ seqR4.product.map Product.id = some 2
    ∧ (storeGet seqR3.store 2).map Product.id = some 2 := by
  refine ⟨?_, by decide, by decide⟩
  intro env users store fs body file h201
  by_cases hw : env.whoamiStatus = 200
  · rcases hu : usersGet users env.whoamiToken with _ | user
    · simp [addProduct, hw, hu] at h201
    · by_cases ha : user.isAdmin
      · rcases hf : file with _ | image
        · simp [addProduct, hw, hu, ha, hf] at h201
        · by_cases hfields : (body.name.truthy && body.description.truthy &&
              body.price.truthy && body.quantity.truthy) = true
          · simp [addProduct, hw, hu, ha, hf, hfields]
          · simp [addProduct, hw, hu, ha, hf, hfields] at h201
      · simp [addProduct, hw, hu, ha] at h201
  · simp [addProduct, hw] at h201

/-- Witness for C1: the first add on the empty store gets ID 1. -/
theorem addProduct_id_is_size_plus_one_witness :
    (addProduct demoEnv demoUsers [] [] demoBody (some (demoFile "a.png"))).product.map Product.id
      = some ((storeSize ([] : Store) : Int) + 1) :=
  addProduct_id_is_size_plus_one.1 demoEnv demoUsers [] [] demoBody
    (some (demoFile "a.png")) (by decide)

/-- C2: an `addProduct` request whose identity check fails gets 401, and
one from an authenticated non-admin gets 403; in both cases the product
store is unchanged. -/
theorem addProduct_auth_failures :
    ∀ env users store fs body file,
      (env.whoamiStatus ≠ 200 →
        (addProduct env users store fs body file).status = 401 ∧
        (addProduct env users store fs body file).store = store)
      ∧ (∀ user, env.whoamiStatus = 200 →
          usersGet users env.whoamiToken = some user →
          user.isAdmin = false →
          (addProduct env users store fs body file).status = 403 ∧
          (addProduct env users store fs body file).store = store) := by
  intro env users store fs body file
  constructor
  · intro hw
    simp [addProduct, hw]
  · intro user hw hu ha
    simp [addProduct, hw, hu, ha]

/-- Witness for C2: a failed identity check gives 401, a non-admin 403,
and in both runs the store is untouched. -/
theorem addProduct_auth_failures_witness :
    ((addProduct demoBadEnv demoUsers demoStore demoFs demoBody
        (some (demoFile "b.png"))).status = 401 ∧
      (addProduct demoBadEnv demoUsers demoStore demoFs demoBody
        (some (demoFile "b.png"))).store = demoStore)
    ∧ ((addProduct demoEnv demoNonAdminUsers demoStore demoFs demoBody
        (some (demoFile "b.png"))).status = 403 ∧
      (addProduct demoEnv demoNonAdminUsers demoStore demoFs demoBody
        (some (demoFile "b.png"))).store = demoStore) :=
  ⟨(addProduct_auth_failures demoBadEnv demoUsers demoStore demoFs demoBody
      (some (demoFile "b.png"))).1 (by decide),
    (addProduct_auth_failures demoEnv demoNonAdminUsers demoStore demoFs demoBody
      (some (demoFile "b.png"))).2 ⟨false⟩ rfl (by decide) rfl⟩

/-- C3: an admin `addProduct` with all four truthy fields and an image
returns 201 with a record whose fields equal the submitted values and
whose `imageUrl` is the upload path (the record carries no image bytes);
the record is `set` into the store, and `getProductById` on the new ID then
returns the same record plus a non-empty base64 payload that decodes to
the uploaded bytes. -/
theorem addProduct_success_roundtrip :
    ∀ env users store fs body fn bytes idp user,
      env.whoamiStatus = 200 →
      usersGet users env.whoamiToken = some user →
      user.isAdmin = true →
      body.name.truthy = true → body.description.truthy = true →
      body.price.truthy = true → body.quantity.truthy = true →
      bytes ≠ [] → (∀ b ∈ bytes, b < 256) →
      parseIntJS idp = some ((storeSize store : Int) + 1) →
      ∃ np : Product,
        addProduct env users store fs body (some ⟨fn, bytes⟩) =
          ⟨201, some np, storeSet store ((storeSize store : Int) + 1) np,
            fsWrite fs ("src/uploads/" ++ fn) bytes⟩ ∧
        np.id = (storeSize store : Int) + 1 ∧
        np.name = body.name ∧ np.description = body.description ∧
        np.price = body.price ∧ np.quantity = body.quantity ∧
        np.imageUrl = "src/uploads/" ++ fn ∧
        ∃ img,
          getProductById env users
              (addProduct env users store fs body (some ⟨fn, bytes⟩)).store
              (addProduct env users store fs body (some ⟨fn, bytes⟩)).fs idp
            = ⟨200, some (np, img)⟩ ∧
          img ≠ [] ∧ base64Decode img = bytes := by
  intro env users store fs body fn bytes idp user hw hu ha h1 h2 h3 h4 hbne hbv hid
  refine ⟨⟨(storeSize store : Int) + 1, body.name, body.description, body.price,
    body.quantity, "src/uploads/" ++ fn⟩, ?_, rfl, rfl, rfl, rfl, rfl, rfl,
    base64Encode bytes, ?_, base64Encode_ne_nil bytes hbne, base64_roundtrip bytes hbv⟩
  · simp [addProduct, multerStore, hw, hu, ha, h1, h2, h3, h4, storeSize]
  · have hstep : addProduct env users store fs body (some ⟨fn, bytes⟩) =
        ⟨201, some ⟨(storeSize store : Int) + 1, body.name, body.description, body.price,
          body.quantity, "src/uploads/" ++ fn⟩,
          storeSet store ((storeSize store : Int) + 1)
            ⟨(storeSize store : Int) + 1, body.name, body.description, body.price,
              body.quantity, "src/uploads/" ++ fn⟩,
          fsWrite fs ("src/uploads/" ++ fn) bytes⟩ := by
      simp [addProduct, multerStore, hw, hu, ha, h1, h2, h3, h4, storeSize]
    rw [hstep]
    simp [getProductById, hid, storeGet_storeSet_self, fsRead_fsWrite_self]

/-- Witness for C3: adding `demoBody` with image bytes `[7, 8, 9]` to the
empty store and reading it back via id string `"1"`. -/
theorem addProduct_success_roundtrip_witness :
    ∃ np : Product,
      addProduct demoEnv demoUsers [] [] demoBody (some ⟨"a.png", [7, 8, 9]⟩) =
        ⟨201, some np, storeSet [] ((storeSize ([] : Store) : Int) + 1) np,
          fsWrite [] ("src/uploads/" ++ "a.png") [7, 8, 9]⟩ ∧
      np.id = (storeSize ([] : Store) : Int) + 1 ∧
      np.name = demoBody.name ∧ np.description = demoBody.description ∧
      np.price = demoBody.price ∧ np.quantity = demoBody.quantity ∧
      np.imageUrl = "src/uploads/" ++ "a.png" ∧
      ∃ img,
        getProductById demoEnv demoUsers
            (addProduct demoEnv demoUsers [] [] demoBody (some ⟨"a.png", [7, 8, 9]⟩)).store
            (addProduct demoEnv demoUsers [] [] demoBody (some ⟨"a.png", [7, 8, 9]⟩)).fs "1"
          = ⟨200, some (np, img)⟩ ∧
        img ≠ [] ∧ base64Decode img = [7, 8, 9] :=
  addProduct_success_roundtrip demoEnv demoUsers [] [] demoBody "a.png" [7, 8, 9] "1"
    demoAdminUser rfl (by decide) rfl (by decide) (by decide) (by decide) (by decide)
    (by decide) (by decide) (by decide)

/-- Field-by-field description of `applyFieldUpdates`. -/
theorem applyFieldUpdates_fields (p : Product) (body : UpdateBody) :
    (applyFieldUpdates p body).id = p.id ∧
    (applyFieldUpdates p body).imageUrl = p.imageUrl ∧
    (applyFieldUpdates p body).name = (if body.name.truthy then body.name else p.name) ∧
    (applyFieldUpdates p body).description
      = (if body.description.truthy then body.description else p.description) ∧
    (applyFieldUpdates p body).price = (if body.price.truthy then body.price else p.price) ∧
    (applyFieldUpdates p body).quantity
      = (if body.quantity.truthy then body.quantity else p.quantity) := by
  unfold applyFieldUpdates
  by_cases h1 : body.name.truthy <;> by_cases h2 : body.description.truthy <;>
    by_cases h3 : body.price.truthy <;> by_cases h4 : body.quantity.truthy <;>
    simp [h1, h2, h3, h4]

/-- C4: an admin `updateProduct` on an existing product overwrites each of
name, description, price and quantity exactly when the body value is
truthy (falsy values, including a zero quantity, are skipped), leaves the
id and `imageUrl` untouched when no file is uploaded, writes the updated
record back at the same key, and returns it with 200. -/
theorem updateProduct_partial_update :
    ∀ env users store fs body user key p,
      env.whoamiStatus = 200 →
      usersGet users env.whoamiToken = some user →
      user.isAdmin = true →
      jsNumber body.productId = some key →
      storeGet store key = some p →
      ∃ q : Product,
        updateProduct env users store fs body none = ⟨200, some q, storeSet store key q, fs⟩ ∧
        q.id = p.id ∧ q.imageUrl = p.imageUrl ∧
        q.name = (if body.name.truthy then body.name else p.name) ∧
        q.description = (if body.description.truthy then body.description else p.description) ∧
        q.price = (if body.price.truthy then body.price else p.price) ∧
        q.quantity = (if body.quantity.truthy then body.quantity else p.quantity) := by
  intro env users store fs body user key p hw hu ha hk hget
  refine ⟨applyFieldUpdates p body, ?_, applyFieldUpdates_fields p body⟩
  simp [updateProduct, multerStore, hw, hu, ha, hk, hget]

/-- Witness for C4: updating only the price of `demoProduct` to 99 leaves
every other field unchanged. -/
theorem updateProduct_partial_update_witness :
    ∃ q : Product,
      updateProduct demoEnv demoUsers demoStore demoFs
          ⟨.num 1, .undef, .undef, .num 99, .undef⟩ none
        = ⟨200, some q, storeSet demoStore 1 q, demoFs⟩ ∧
      q.id = demoProduct.id ∧ q.imageUrl = demoProduct.imageUrl ∧
      q.name = (if (JVal.undef).truthy then .undef else demoProduct.name) ∧
      q.description = (if (JVal.undef).truthy then .undef else demoProduct.description) ∧
      q.price = (if (JVal.num 99).truthy then .num 99 else demoProduct.price) ∧
      q.quantity = (if (JVal.undef).truthy then .undef else demoProduct.quantity) :=
  updateProduct_partial_update demoEnv demoUsers demoStore demoFs
    ⟨.num 1, .undef, .undef, .num 99, .undef⟩ demoAdminUser 1 demoProduct
    rfl (by decide) rfl (by decide) (by decide)

/-- Modelled from the spec: the spec's phrase "a valid integer" for the
`:id` path parameter, read as a string that is an integer in its entirety
(optional sign followed by digits only). Kept for comparison with the
source's `parseInt`-based check. -/
def specValidInteger (s : String) : Bool :=
  let l2 := match s.toList with
    | '-' :: rest => rest
    | '+' :: rest => rest
    | rest => rest
  !l2.isEmpty && l2.all Char.isDigit

/-- C5 counterexample: `"3.5"` is not a valid integer, yet
`getProductById` does not answer 400: `parseInt("3.5")` is 3, so the
request proceeds to the (missing) product lookup and answers 404. -/
theorem getProductById_valid_integer_counterexample :
    specValidInteger "3.5" = false ∧
    (getProductById demoEnv demoUsers demoStore demoFs "3.5").status = 404 ∧
    (getProductById demoEnv demoUsers demoStore demoFs "3.5").status ≠ 400 := by decide

/-- C5 amended: `getProductById` answers 400 exactly when radix-less
`parseInt` on the id yields `NaN` — after JavaScript whitespace and an
optional sign, no digit follows (hexadecimal digits when a `0x`/`0X`
prefix is present, decimal digits otherwise). When a leading integer
parses — including hexadecimal ids such as `"0x10"` — the id is treated
as that integer and a missing product gives 404. No authorization is
consulted: the result is the same for every identity outcome and user
table. -/
theorem getProductById_parseInt_behavior :
    ∀ env users store fs idp,
      (parseIntJS idp = none → (getProductById env users store fs idp).status = 400) ∧
      (∀ n, parseIntJS idp = some n → storeGet store n = none →
        (getProductById env users store fs idp).status = 404) ∧
      (∀ env2 users2,
        getProductById env users store fs idp = getProductById env2 users2 store fs idp) := by
  intro env users store fs idp
  refine ⟨?_, ?_, fun env2 users2 => rfl⟩
  · intro hp
    simp [getProductById, hp]
  · intro n hp hg
    simp [getProductById, hp, hg]

/-- Witness for C5 amended: `"abc"` gives 400; `"9999"` on a store without
product 9999 gives 404; the hexadecimal id `"0x10"` parses to 16 and gives
404 on a store without product 16. -/
theorem getProductById_parseInt_behavior_witness :
    (getProductById demoEnv demoUsers demoStore demoFs "abc").status = 400 ∧
    (getProductById demoEnv demoUsers demoStore demoFs "9999").status = 404 ∧
    (getProductById demoEnv demoUsers demoStore demoFs "0x10").status = 404 :=
  ⟨(getProductById_parseInt_behavior demoEnv demoUsers demoStore demoFs "abc").1 (by decide),
    (getProductById_parseInt_behavior demoEnv demoUsers demoStore demoFs "9999").2.1
      9999 (by decide) (by decide),
    (getProductById_parseInt_behavior demoEnv demoUsers demoStore demoFs "0x10").2.1
      16 (by decide) (by decide)⟩

/-- C6 counterexample: an admin delete whose `productId` is the number 0
does not resolve to any product, yet the response is 400, not the claimed
404 (the falsy-`productId` check fires before the lookup); the store is
still unchanged. -/
theorem deleteProduct_nonresolving_counterexample :
    storeGet demoStore 0 = none ∧
    (deleteProduct demoEnv demoUsers demoStore demoFs (.num 0)).status = 400 ∧
    (deleteProduct demoEnv demoUsers demoStore demoFs (.num 0)).status ≠ 404 ∧
    (deleteProduct demoEnv demoUsers demoStore demoFs (.num 0)).store = demoStore := by decide

/-- The product resolution performed by `deleteProduct`: the raw body value
is used as the `Map` key, so only a number can match. -/
def deleteLookup (store : Store) (pid : JVal) : Option Product :=
  match jvalKey pid with
  | none => none
  | some k => storeGet store k

/-- C6 amended: for an admin delete, a truthy `productId` that does not
resolve to a product gives 404 with the store unchanged, while a falsy
`productId` gives 400, also with the store unchanged. -/
theorem deleteProduct_notfound :
    ∀ env users store fs pid user,
      env.whoamiStatus = 200 →
      usersGet users env.whoamiToken = some user →
      user.isAdmin = true →
      (pid.truthy = true → deleteLookup store pid = none →
        (deleteProduct env users store fs pid).status = 404 ∧
        (deleteProduct env users store fs pid).store = store) ∧
      (pid.truthy = false →
        (deleteProduct env users store fs pid).status = 400 ∧
        (deleteProduct env users store fs pid).store = store) := by
  intro env users store fs pid user hw hu ha
  constructor
  · intro hp hlook
    rcases hk : jvalKey pid with _ | k
    · simp [deleteProduct, hw, hu, ha, hp, hk]
    · have hg : storeGet store k = none := by
        simpa [deleteLookup, hk] using hlook
      simp [deleteProduct, hw, hu, ha, hp, hk, hg]
  · intro hp
    simp [deleteProduct, hw, hu, ha, hp]

/-- Witness for C6 amended: deleting the absent id 9999 gives 404 and
leaves the store alone; a falsy id 0 gives 400 and also leaves it alone. -/
theorem deleteProduct_notfound_witness :
    ((deleteProduct demoEnv demoUsers demoStore demoFs (.num 9999)).status = 404 ∧
      (deleteProduct demoEnv demoUsers demoStore demoFs (.num 9999)).store = demoStore) ∧
    ((deleteProduct demoEnv demoUsers demoStore demoFs (.num 0)).status = 400 ∧
      (deleteProduct demoEnv demoUsers demoStore demoFs (.num 0)).store = demoStore) :=
  ⟨(deleteProduct_notfound demoEnv demoUsers demoStore demoFs (.num 9999) demoAdminUser
      rfl (by decide) rfl).1 (by decide) (by decide),
    (deleteProduct_notfound demoEnv demoUsers demoStore demoFs (.num 0) demoAdminUser
      rfl (by decide) rfl).2 (by decide)⟩

/-- C7: an admin delete of an existing product (a nonzero numeric id found
in the store) answers 200, removes exactly that key from the store — so a
subsequent `getProductById` on that ID answers 404 — and does not touch
the filesystem: the backing image file stays in storage. -/
theorem deleteProduct_existing :
    ∀ env users store fs n p user idp,
      env.whoamiStatus = 200 →
      usersGet users env.whoamiToken = some user →
      user.isAdmin = true →
      n ≠ 0 →
      storeGet store n = some p →
      parseIntJS idp = some n →
      (deleteProduct env users store fs (.num n)).status = 200 ∧
      (deleteProduct env users store fs (.num n)).store = storeDelete store n ∧
      storeGet (deleteProduct env users store fs (.num n)).store n = none ∧
      (deleteProduct env users store fs (.num n)).fs = fs ∧
      (getProductById env users (deleteProduct env users store fs (.num n)).store fs idp).status
        = 404 := by
  intro env users store fs n p user idp hw hu ha hn hget hid
  have htr : (JVal.num n).truthy = true := by simp [JVal.truthy, hn]
  have hstep : deleteProduct env users store fs (.num n) =
      ⟨200, none, storeDelete store n, fs⟩ := by
    simp [deleteProduct, hw, hu, ha, htr, jvalKey, hget]
  rw [hstep]
  refine ⟨rfl, rfl, storeGet_storeDelete_self store n, rfl, ?_⟩
  simp [getProductById, hid, storeGet_storeDelete_self]

/-- Witness for C7: deleting product 1 from `demoStore` and then asking
for `"1"` again. -/
theorem deleteProduct_existing_witness :
    (deleteProduct demoEnv demoUsers demoStore demoFs (.num 1)).status = 200 ∧
    (deleteProduct demoEnv demoUsers demoStore demoFs (.num 1)).store
      = storeDelete demoStore 1 ∧
    storeGet (deleteProduct demoEnv demoUsers demoStore demoFs (.num 1)).store 1 = none ∧
    (deleteProduct demoEnv demoUsers demoStore demoFs (.num 1)).fs = demoFs ∧
    (getProductById demoEnv demoUsers
        (deleteProduct demoEnv demoUsers demoStore demoFs (.num 1)).store demoFs "1").status
      = 404 :=
  deleteProduct_existing demoEnv demoUsers demoStore demoFs 1 demoProduct demoAdminUser "1"
    rfl (by decide) rfl (by decide) (by decide) (by decide)

/-- A single unreadable image makes the whole traversal fail. -/
theorem readAllImages_fail : ∀ (l : List Product) (fs : Fs),
    (∃ p ∈ l, fsRead fs p.imageUrl = none) → readAllImages l fs = none
  | [], _, h => by simp at h
  | p :: rest, fs, h => by
    rcases hr : fsRead fs p.imageUrl with _ | bytes
    · simp [readAllImages, hr]
    · rcases h with ⟨q, hq, hqr⟩
      rcases List.mem_cons.mp hq with rfl | hq2
      · rw [hr] at hqr
        exact absurd hqr (by simp)
      · simp [readAllImages, hr, readAllImages_fail rest fs ⟨q, hq2, hqr⟩]

/-- A successful traversal returns every product with the base64 encoding
of its image bytes. -/
theorem readAllImages_ok : ∀ (l : List Product) (fs : Fs) (res : List (Product × List Char)),
    readAllImages l fs = some res →
    res = l.map (fun p => (p, base64Encode ((fsRead fs p.imageUrl).getD [])))
  | [], _, res, h => by
    simp [readAllImages] at h
    simp [h.symm]
  | p :: rest, fs, res, h => by
    rcases hr : fsRead fs p.imageUrl with _ | bytes
    · rw [readAllImages, hr] at h
      exact absurd h (by simp)
    · rw [readAllImages, hr] at h
      rcases hrest : readAllImages rest fs with _ | res2
      · rw [hrest] at h
        exact absurd h (by simp)
      · rw [hrest] at h
        have hres : res = (p, base64Encode bytes) :: res2 := by
          simpa using h.symm
        rw [hres, readAllImages_ok rest fs res2 hrest]
        simp [hr]

/-- C8: `getProducts` consults no authorization (same result for every
identity outcome and user table); if any single product's image read
fails, the whole request fails with no partial result; and on success
every product is returned with its image embedded as base64. -/
theorem getProducts_all_or_nothing :
    ∀ env users env2 users2 store fs,
      (getProducts env users store fs = getProducts env2 users2 store fs) ∧
      ((∃ e ∈ store, fsRead fs e.2.imageUrl = none) → getProducts env users store fs = none) ∧
      (∀ res, getProducts env users store fs = some res →
        res = (store.map (fun e => e.2)).map
          (fun p => (p, base64Encode ((fsRead fs p.imageUrl).getD [])))) := by
  intro env users env2 users2 store fs
  refine ⟨rfl, ?_, ?_⟩
  · rintro ⟨e, he, her⟩
    exact readAllImages_fail _ fs ⟨e.2, List.mem_map_of_mem _ he, her⟩
  · intro res h
    exact readAllImages_ok _ fs res h

/-- Witness for C8: with the image file missing the whole request fails;
with it present the full list with base64 payloads is returned. -/
theorem getProducts_all_or_nothing_witness :
    getProducts demoEnv demoUsers demoStore [] = none ∧
    ((getProducts demoEnv demoUsers demoStore demoFs = some
        [(demoProduct, base64Encode [7, 8, 9])]) →
      [(demoProduct, base64Encode [7, 8, 9])] = (demoStore.map (fun e => e.2)).map
        (fun p => (p, base64Encode ((fsRead demoFs p.imageUrl).getD [])))) :=
  ⟨(getProducts_all_or_nothing demoEnv demoUsers demoEnv demoUsers demoStore []).2.1
      ⟨(1, demoProduct), by decide, by decide⟩,
    fun h => (getProducts_all_or_nothing demoEnv demoUsers demoEnv demoUsers demoStore
      demoFs).2.2 [(demoProduct, base64Encode [7, 8, 9])] h⟩

/-- C9: for each mutating operation, when the identity endpoint answers
200 but the token has no user in the Record Store, the `users.get` miss
makes the `user.isAdmin()` access throw, so the operation answers 500 and
the product store is unchanged. -/
theorem missing_user_yields_500 :
    ∀ env users store fs addBody addFile updBody updFile delPid,
      env.whoamiStatus = 200 →
      usersGet users env.whoamiToken = none →
      ((addProduct env users store fs addBody addFile).status = 500 ∧
        (addProduct env users store fs addBody addFile).store = store) ∧
      ((updateProduct env users store fs updBody updFile).status = 500 ∧
        (updateProduct env users store fs updBody updFile).store = store) ∧
      ((deleteProduct env users store fs delPid).status = 500 ∧
        (deleteProduct env users store fs delPid).store = store) := by
  intro env users store fs addBody addFile updBody updFile delPid hw hu
  refine ⟨⟨?_, ?_⟩, ⟨?_, ?_⟩, ?_, ?_⟩ <;>
    simp [addProduct, updateProduct, deleteProduct, hw, hu]

/-- Witness for C9: token `"ghost"` passes the identity check but is bound
to no user; all three operations answer 500 and leave the store alone. -/
theorem missing_user_yields_500_witness :
    ((addProduct ⟨200, "ghost"⟩ demoUsers demoStore demoFs demoBody
        (some (demoFile "b.png"))).status = 500 ∧
      (addProduct ⟨200, "ghost"⟩ demoUsers demoStore demoFs demoBody
        (some (demoFile "b.png"))).store = demoStore) ∧
    ((updateProduct ⟨200, "ghost"⟩ demoUsers demoStore demoFs
        ⟨.num 1, .undef, .undef, .num 99, .undef⟩ none).status = 500 ∧
      (updateProduct ⟨200, "ghost"⟩ demoUsers demoStore demoFs
        ⟨.num 1, .undef, .undef, .num 99, .undef⟩ none).store = demoStore) ∧
    ((deleteProduct ⟨200, "ghost"⟩ demoUsers demoStore demoFs (.num 1)).status = 500 ∧
      (deleteProduct ⟨200, "ghost"⟩ demoUsers demoStore demoFs (.num 1)).store = demoStore) :=
  missing_user_yields_500 ⟨200, "ghost"⟩ demoUsers demoStore demoFs demoBody
    (some (demoFile "b.png")) ⟨.num 1, .undef, .undef, .num 99, .undef⟩ none (.num 1)
    rfl (by decide)

/-- C10: an admin `addProduct` in which some field is present but falsy
(zero number or empty string) answers 400 and leaves the store unchanged —
the zero is rejected like a missing field — whereas `updateProduct` merely
skips a falsy field: with a present-but-falsy quantity it still answers
200 and keeps the old quantity. -/
theorem addProduct_falsy_field_rejected :
    (∀ env users store fs body file user,
      env.whoamiStatus = 200 →
      usersGet users env.whoamiToken = some user →
      user.isAdmin = true →
      (body.name.presentFalsy || body.description.presentFalsy ||
        body.price.presentFalsy || body.quantity.presentFalsy) = true →
      (addProduct env users store fs body file).status = 400 ∧
      (addProduct env users store fs body file).store = store)
    ∧ (∀ env users store fs body user key p,
        env.whoamiStatus = 200 →
        usersGet users env.whoamiToken = some user →
        user.isAdmin = true →
        jsNumber body.productId = some key →
        storeGet store key = some p →
        body.quantity.presentFalsy = true →
        (updateProduct env users store fs body none).status = 200 ∧
        ∃ q, (updateProduct env users store fs body none).product = some q ∧
          q.quantity = p.quantity) := by
  constructor
  · intro env users store fs body file user hw hu ha hfield
    have hfalse : (body.name.truthy && body.description.truthy &&
        body.price.truthy && body.quantity.truthy) = false := by
      have hsome : body.name.truthy = false ∨ body.description.truthy = false ∨
          body.price.truthy = false ∨ body.quantity.truthy = false := by
        simp only [JVal.presentFalsy, Bool.or_eq_true, Bool.and_eq_true,
          Bool.not_eq_true'] at hfield
        tauto
      rcases hsome with h | h | h | h <;> simp [h]
    rcases file with _ | image
    · simp [addProduct, hw, hu, ha]
    · simp [addProduct, multerStore, hw, hu, ha, hfalse]
  · intro env users store fs body user key p hw hu ha hk hget hq
    have hqf : body.quantity.truthy = false := by
      simp only [JVal.presentFalsy, Bool.and_eq_true, Bool.not_eq_true'] at hq
      exact hq.2
    have hfields := applyFieldUpdates_fields p body
    refine ⟨?_, applyFieldUpdates p body, ?_, ?_⟩
    · simp [updateProduct, multerStore, hw, hu, ha, hk, hget]
    · simp [updateProduct, multerStore, hw, hu, ha, hk, hget]
    · rw [hfields.2.2.2.2.2, hqf]
      simp

/-- Witness for C10: an add with quantity 0 is rejected with 400 and the
store untouched; an update with quantity 0 answers 200 and keeps the old
quantity. -/
theorem addProduct_falsy_field_rejected_witness :
    ((addProduct demoEnv demoUsers demoStore demoFs
        ⟨.str "Widget", .str "A widget", .num 10, .num 0⟩
        (some (demoFile "b.png"))).status = 400 ∧
      (addProduct demoEnv demoUsers demoStore demoFs
        ⟨.str "Widget", .str "A widget", .num 10, .num 0⟩
        (some (demoFile "b.png"))).store = demoStore) ∧
    ((updateProduct demoEnv demoUsers demoStore demoFs
        ⟨.num 1, .undef, .undef, .undef, .num 0⟩ none).status = 200 ∧
      ∃ q, (updateProduct demoEnv demoUsers demoStore demoFs
          ⟨.num 1, .undef, .undef, .undef, .num 0⟩ none).product = some q ∧
        q.quantity = demoProduct.quantity) :=
  ⟨addProduct_falsy_field_rejected.1 demoEnv demoUsers demoStore demoFs
      ⟨.str "Widget", .str "A widget", .num 10, .num 0⟩ (some (demoFile "b.png"))
      demoAdminUser rfl (by decide) rfl (by decide),
    addProduct_falsy_field_rejected.2 demoEnv demoUsers demoStore demoFs
      ⟨.num 1, .undef, .undef, .undef, .num 0⟩ demoAdminUser 1 demoProduct
      rfl (by decide) rfl (by decide) (by decide) (by decide)⟩

end ECommerce
